import Mathlib

/-!
Shallow embedding of `src/agents/xagent/tools/safety_wrapper.py`
(`ToolSafetyWrapper`): a bounded, auditable execution gate for tool
callables.  Python values are modelled by what the wrapper observes of
them — their `str()` rendering, which may itself raise; the callable's
behaviour is modelled by its outcome (return a value, raise an
exception with a given message, or run past the alarm deadline).
Wall-clock readings (`time.time()` values) are ambient inputs, passed
in as a `Clock` of exact rationals; Python floats are modelled as ℚ.
Steps of the source that can raise are modelled in `Except`: the ones
inside the `try` block of `execute_safely` are caught by its
`except Exception` clause, while the argument rendering done by the
pre-`try` `_log_execution_start` debug line (with logging enabled)
escapes to the caller, which `execute_safely` reports as an
`Except.error` result alongside the unchanged wrapper state.
-/

namespace SafetyWrapper

/-- Result of applying Python `str()` to a value: either the rendered
string, or the message of the exception the conversion raised. -/
inductive StrResult where
  | ok (s : String)
  | raises (msg : String)
deriving DecidableEq, Repr

/-- A Python value as the wrapper observes it: its textual rendering
(`repr` when shown inside the args tuple or kwargs dict, `str` when a
return value is logged and recorded; no claim relates the two on one
value, so a single field stands for both). -/
structure PyVal where
  render : StrResult
deriving DecidableEq, Repr

/-- Behaviour of one invocation of the tool callable: it returns a
value, raises an exception whose `str()` is `msg`, or is still running
when the `SIGALRM` deadline fires (the handler then raises
`TimeoutError`). -/
inductive CallOutcome where
  | returns (v : PyVal)
  | raises (msg : String)
  | timesOut
deriving DecidableEq, Repr

/-- Wall-clock readings taken during one `execute_safely` call:
`startInt` is `int(start_time)` (used in the execution id), `elapsed`
is the measured `time.time() - start_time`, `now` is the `time.time()`
read inside `_record_execution`. -/
structure Clock where
  startInt : Int
  elapsed : ℚ
  now : ℚ
deriving DecidableEq, Repr

/-- One entry of `self.execution_history` (source lines 132-139). -/
structure ExecutionRecord where
  id : String
  tool_name : String
  success : Bool
  execution_time : ℚ
  timestamp : ℚ
  result : String
deriving DecidableEq, Repr

/-- Boolean substring test on character lists: Python's `pattern in s`. -/
def isSubstrB (pat : List Char) : List Char → Bool
  | [] => pat.isEmpty
  | c :: rest => pat.isPrefixOf (c :: rest) || isSubstrB pat rest

/-- Proposition that `pat` occurs as a contiguous substring of `s`. -/
def strIncludes (s pat : String) : Prop := ∃ a b : String, s = a ++ pat ++ b

/-- The fixed denylist of `_validate_input` (source lines 67-70). -/
def dangerous_patterns : List String :=
  ["eval(", "exec(", "import ", "os.system", "subprocess",
   "file://", "http://", "https://", "ftp://"]

/-- One Python single-quote character, as produced by `repr` around a
dict key. -/
def sq : String := (Char.ofNat 39).toString

/-- Join a list of element renderings with a separator: the
concatenation in order, or the first raised exception (Python renders
elements left to right and the first failing `__repr__` aborts the
whole rendering, so no later separator or element is ever produced). -/
def joinRenders (sep : String) : List StrResult → StrResult
  | [] => .ok ""
  | [StrResult.ok s] => .ok s
  | [StrResult.raises m] => .raises m
  | StrResult.ok s :: r :: rest =>
      match joinRenders sep (r :: rest) with
      | .ok t => .ok (s ++ sep ++ t)
      | .raises m => .raises m
  | StrResult.raises m :: _ :: _ => .raises m

/-- Python `str(args)` for the positional-argument tuple: `()` when
empty, `(x,)` for one element, `(x, y, ...)` otherwise, each element
contributing its own rendering. -/
def strOfArgs (args : List PyVal) : StrResult :=
  match args with
  | [] => .ok "()"
  | [v] =>
      match v.render with
      | .ok s => .ok ("(" ++ s ++ ",)")
      | .raises m => .raises m
  | _ =>
      match joinRenders ", " (args.map PyVal.render) with
      | .ok s => .ok ("(" ++ s ++ ")")
      | .raises m => .raises m

/-- Rendering of one `key: value` entry of the kwargs dict: the key is
a Python string, shown by `repr` inside single quotes (keys are taken
not to need further escaping), then the value's own rendering. -/
def kwRender (kv : String × PyVal) : StrResult :=
  match kv.2.render with
  | .ok s => .ok (sq ++ kv.1 ++ sq ++ ": " ++ s)
  | .raises m => .raises m

/-- Python `str(kwargs)` for the keyword-argument dict: braces around
the comma-separated `key: value` entries in insertion order. -/
def strOfKwargs (kwargs : List (String × PyVal)) : StrResult :=
  match joinRenders ", " (kwargs.map kwRender) with
  | .ok s => .ok ("\x7b" ++ s ++ "\x7d")
  | .raises m => .raises m

/-- The text `str(args) + str(kwargs)` that `_validate_input` scans
(source line 72): `str(args)` is rendered fully first, then
`str(kwargs)`, and the first raised rendering exception aborts. -/
def inputStr (args : List PyVal) (kwargs : List (String × PyVal)) : StrResult :=
  match strOfArgs args with
  | .raises m => .raises m
  | .ok s =>
      match strOfKwargs kwargs with
      | .raises m => .raises m
      | .ok t => .ok (s ++ t)

/-- `ToolSafetyWrapper.__init__` state: the logger flag, the execution
history ledger, and the two configuration knobs. -/
structure ToolSafetyWrapper where
  enable_logging : Bool
  execution_history : List ExecutionRecord
  max_execution_time : Int
  max_memory_usage : Int
deriving DecidableEq, Repr

namespace ToolSafetyWrapper

/-- `ToolSafetyWrapper(enable_logging)`: empty ledger, 30 s deadline,
100 MiB memory knob (source lines 13-17). -/
def init (enable_logging : Bool) : ToolSafetyWrapper :=
  ⟨enable_logging, [], 30, 100 * 1024 * 1024⟩

/-- `_validate_input` (source lines 58-84): count limits first, then
the denylist scan of `str(args) + str(kwargs)`; any exception raised
inside (in particular by the rendering) is caught and turns into
`False` — validation fails closed. -/
def validate_input (args : List PyVal) (kwargs : List (String × PyVal)) : Bool :=
  if args.length > 10 then false
  else if kwargs.length > 20 then false
  else
    match inputStr args kwargs with
    | .raises _ => false
    | .ok s => ! dangerous_patterns.any fun p => isSubstrB p.toList s.toList

/-- The ledger update of `_record_execution` (source lines 141-146):
append, then keep only the last 1000 entries. -/
def historyStep (h : List ExecutionRecord) (r : ExecutionRecord) : List ExecutionRecord :=
  if (h ++ [r]).length > 1000 then (h ++ [r]).drop ((h ++ [r]).length - 1000) else h ++ [r]

/-- Python slice `s[:n]`: the first `n` characters. -/
def pyTrunc (s : String) (n : Nat) : String := String.mk (s.data.take n)

/-- `_record_execution` (source lines 130-146): build the record — the
result text is `str(result)[:1000]` — and push it through the capacity
rule.  The caller has already applied `str` (modelled by passing the
rendered `result` string), so no exception arises here. -/
def record_execution (w : ToolSafetyWrapper) (eid tool_name : String) (success : Bool)
    (clk : Clock) (result : String) : ToolSafetyWrapper :=
  let r : ExecutionRecord :=
    ⟨eid, tool_name, success, clk.elapsed, clk.now, pyTrunc result 1000⟩
  { w with execution_history := historyStep w.execution_history r }

/-- Message of the `TimeoutError` raised by the `SIGALRM` handler in
`_execute_with_timeout` (source line 91). -/
def timeoutMsg (w : ToolSafetyWrapper) : String :=
  "Tool execution timed out after " ++ toString w.max_execution_time ++ " seconds"

/-- The body of the `try` block of `execute_safely` (source lines
27-44): validate (its own exceptions are already caught inside
`_validate_input`), run under the alarm, log and record success.  An
`Except.error m` is an exception with `str()` text `m` escaping to the
`except` clause: the callable's own exception, the handler's
`TimeoutError`, or the `str(result)` failure raised while logging or
recording a value whose rendering raises.  The pre-`try` rendering of
the arguments by `_log_execution_start` is NOT part of this body; it
is modelled separately in `execute_safely`. -/
def try_body (w : ToolSafetyWrapper) (eid tool_name : String) (outcome : CallOutcome)
    (args : List PyVal) (kwargs : List (String × PyVal)) (clk : Clock) :
    Except String (ToolSafetyWrapper × (PyVal ⊕ String)) :=
  if validate_input args kwargs = false then
    .ok (w, .inr ("Input validation failed for tool " ++ tool_name))
  else
    match outcome with
    | .returns v =>
        match v.render with
        | .ok s => .ok (record_execution w eid tool_name true clk s, .inl v)
        | .raises m => .error m
    | .raises m => .error m
    | .timesOut => .error (timeoutMsg w)

/-- The rendering performed by `_log_execution_start` (source line 25,
body lines 109-112), which runs BEFORE the `try` block: with logging
enabled the debug f-string renders `str(args)` then `str(kwargs)`, so
a raising argument rendering makes `execute_safely` itself raise to
its caller; with logging disabled the logger is `None` and nothing is
rendered.  Only the raising behaviour of this text is observable in
the model; the log line itself is discarded. -/
def startLogRender (w : ToolSafetyWrapper) (args : List PyVal)
    (kwargs : List (String × PyVal)) : StrResult :=
  if w.enable_logging then inputStr args kwargs else .ok ""

/-- `execute_safely` (source lines 19-56).  The first component is the
wrapper state after the call (the Python object, mutated in place);
the second is the call's outcome at the caller: `.ok (.inl v)` is the
callable's value returned verbatim, `.ok (.inr e)` is a returned error
string, and `.error m` is an exception escaping to the caller — which
happens exactly when the pre-`try` `_log_execution_start` rendering of
the arguments raises (line 25, with `enable_logging = True`), before
any validation or mutation.  Inside the `try`, the `except Exception`
clause (lines 46-56) records a failed execution and returns the safe
error message. -/
def execute_safely (w : ToolSafetyWrapper) (tool_name : String) (outcome : CallOutcome)
    (args : List PyVal) (kwargs : List (String × PyVal)) (clk : Clock) :
    ToolSafetyWrapper × Except String (PyVal ⊕ String) :=
  let eid := tool_name ++ "_" ++ toString clk.startInt
  match startLogRender w args kwargs with
  | .raises m => (w, .error m)
  | .ok _ =>
      match try_body w eid tool_name outcome args kwargs clk with
      | .ok (w2, r) => (w2, .ok r)
      | .error m =>
          let error_msg := "Tool " ++ tool_name ++ " execution failed: " ++ m
          (record_execution w eid tool_name false clk error_msg, .ok (.inr error_msg))

/-- The dictionary returned by `get_execution_stats`: on an empty
ledger the source returns `{"total_executions": 0}` only, so every
other key is optional. -/
structure ExecStats where
  total_executions : Nat
  successful_executions : Option Nat
  failed_executions : Option Nat
  success_rate : Option ℚ
  average_execution_time : Option ℚ
  total_execution_time : Option ℚ
deriving DecidableEq, Repr

/-- `get_execution_stats` (source lines 148-166). -/
def get_execution_stats (w : ToolSafetyWrapper) : ExecStats :=
  if w.execution_history.isEmpty then ⟨0, none, none, none, none, none⟩
  else
    let h := w.execution_history
    let successful := h.filter fun e => e.success
    let failed := h.filter fun e => ! e.success
    let total_time : ℚ := (h.map fun e => e.execution_time).sum
    ⟨h.length, some successful.length, some failed.length,
      some ((successful.length : ℚ) / (h.length : ℚ)),
      some (total_time / (h.length : ℚ)), some total_time⟩

/-- `get_recent_executions` (source lines 168-170): the Python slice
`self.execution_history[-limit:]` for a non-negative `limit`; since
`-0 == 0` in Python, `limit = 0` slices from index 0 and yields the
whole ledger. -/
def get_recent_executions (w : ToolSafetyWrapper) (limit : Nat) : List ExecutionRecord :=
  if w.execution_history.isEmpty then []
  else if limit = 0 then w.execution_history
  else w.execution_history.drop (w.execution_history.length - limit)

/-- `clear_execution_history` (source lines 172-174). -/
def clear_execution_history (w : ToolSafetyWrapper) : ToolSafetyWrapper :=
  { w with execution_history := [] }

/-- `set_max_execution_time` (source lines 176-178). -/
def set_max_execution_time (w : ToolSafetyWrapper) (seconds : Int) : ToolSafetyWrapper :=
  { w with max_execution_time := max 1 seconds }

/-- `set_max_memory_usage` (source lines 180-182). -/
def set_max_memory_usage (w : ToolSafetyWrapper) (bytes_limit : Int) : ToolSafetyWrapper :=
  { w with max_memory_usage := max 1024 bytes_limit }

/-- One externally invocable operation of the wrapper, for stating
invariants over arbitrary operation sequences. -/
inductive Op where
  | exec (tool_name : String) (outcome : CallOutcome)
      (args : List PyVal) (kwargs : List (String × PyVal)) (clk : Clock)
  | clear
  | setTime (seconds : Int)
  | setMem (bytes_limit : Int)

/-- Apply one operation to the wrapper state. -/
def runOp (w : ToolSafetyWrapper) : Op → ToolSafetyWrapper
  | .exec n o a k c => (execute_safely w n o a k c).1
  | .clear => clear_execution_history w
  | .setTime s => set_max_execution_time w s
  | .setMem b => set_max_memory_usage w b

/-- Apply a sequence of operations, left to right. -/
def run (w : ToolSafetyWrapper) (ops : List Op) : ToolSafetyWrapper :=
  ops.foldl runOp w

end ToolSafetyWrapper

end SafetyWrapper

namespace SafetyWrapper

namespace ToolSafetyWrapper

/-! ### Helper lemmas -/

/-- If validation succeeds, the rendering of the arguments succeeded
(the denylist branch of `_validate_input` was reached). -/
theorem inputStr_ok_of_validate (args : List PyVal) (kwargs : List (String × PyVal))
    (h : validate_input args kwargs = true) :
    ∃ s, inputStr args kwargs = StrResult.ok s := by
  unfold validate_input at h
  rcases Nat.lt_or_ge 10 args.length with h10 | h10
  · simp [h10] at h
  · rcases Nat.lt_or_ge 20 kwargs.length with h20 | h20
    · simp [Nat.not_lt.mpr h10, h20] at h
    · rcases hi : inputStr args kwargs with s | m
      · exact ⟨s, rfl⟩
      · simp [Nat.not_lt.mpr h10, Nat.not_lt.mpr h20, hi] at h

/-- With logging disabled, or when the arguments render, the pre-`try`
logging line does not raise. -/
theorem startLogRender_ok (w : ToolSafetyWrapper) (args : List PyVal)
    (kwargs : List (String × PyVal))
    (h : w.enable_logging = false ∨ ∃ s, inputStr args kwargs = StrResult.ok s) :
    ∃ s, startLogRender w args kwargs = StrResult.ok s := by
  unfold startLogRender
  rcases h with h | ⟨s, hs⟩
  · exact ⟨"", by simp [h]⟩
  · cases hE : w.enable_logging
    · exact ⟨"", by simp [hE]⟩
    · exact ⟨s, by simp [hE, hs]⟩

/-- A validated call never raises at the pre-`try` logging line. -/
theorem startLogRender_ok_of_validate (w : ToolSafetyWrapper) (args : List PyVal)
    (kwargs : List (String × PyVal)) (h : validate_input args kwargs = true) :
    ∃ s, startLogRender w args kwargs = StrResult.ok s :=
  startLogRender_ok w args kwargs (Or.inr (inputStr_ok_of_validate args kwargs h))

/-- When the pre-`try` logging rendering raises (logging enabled and a
raising argument rendering), the exception escapes before validation
ever runs and the wrapper is unchanged. -/
theorem execute_escape (w : ToolSafetyWrapper) (tool_name : String) (outcome : CallOutcome)
    (args : List PyVal) (kwargs : List (String × PyVal)) (clk : Clock) (m : String)
    (h : startLogRender w args kwargs = StrResult.raises m) :
    execute_safely w tool_name outcome args kwargs clk = (w, Except.error m) := by
  simp [execute_safely, h]

/-- A call that reaches the `try` block and is rejected by input
validation returns the error string and leaves the wrapper unchanged,
regardless of the callable. -/
theorem execute_of_validation_failure (w : ToolSafetyWrapper) (tool_name : String)
    (outcome : CallOutcome) (args : List PyVal) (kwargs : List (String × PyVal)) (clk : Clock)
    (s0 : String) (hs : startLogRender w args kwargs = StrResult.ok s0)
    (hv : validate_input args kwargs = false) :
    execute_safely w tool_name outcome args kwargs clk =
      (w, Except.ok (Sum.inr ("Input validation failed for tool " ++ tool_name))) := by
  simp [execute_safely, hs, try_body, hv]

/-- The ledger after one `_record_execution` never exceeds 1000 entries. -/
theorem historyStep_length_le (h : List ExecutionRecord) (r : ExecutionRecord) :
    (historyStep h r).length ≤ 1000 := by
  unfold historyStep
  split
  · simp
    omega
  · simp_all

/-- One `execute_safely` call either leaves the ledger unchanged (an
escaping pre-`try` rendering, or a validation rejection) or pushes
exactly one record through the capacity rule. -/
theorem execute_history_cases (w : ToolSafetyWrapper) (tool_name : String)
    (outcome : CallOutcome) (args : List PyVal) (kwargs : List (String × PyVal)) (clk : Clock) :
    (execute_safely w tool_name outcome args kwargs clk).1.execution_history =
        w.execution_history ∨
      ∃ r : ExecutionRecord,
        (execute_safely w tool_name outcome args kwargs clk).1.execution_history =
          historyStep w.execution_history r := by
  rcases hpre : startLogRender w args kwargs with s0 | m
  · rcases hv : validate_input args kwargs with _ | _
    · simp [execute_safely, hpre, try_body, hv]
    · rcases outcome with v | m | _
      · rcases hr : v.render with s | m
        · exact Or.inr ⟨⟨tool_name ++ "_" ++ toString clk.startInt, tool_name, true,
            clk.elapsed, clk.now, pyTrunc s 1000⟩,
            by simp [execute_safely, hpre, try_body, hv, hr, record_execution]⟩
        · exact Or.inr ⟨⟨tool_name ++ "_" ++ toString clk.startInt, tool_name, false,
            clk.elapsed, clk.now,
            pyTrunc ("Tool " ++ tool_name ++ " execution failed: " ++ m) 1000⟩,
            by simp [execute_safely, hpre, try_body, hv, hr, record_execution]⟩
      · exact Or.inr ⟨⟨tool_name ++ "_" ++ toString clk.startInt, tool_name, false,
          clk.elapsed, clk.now,
          pyTrunc ("Tool " ++ tool_name ++ " execution failed: " ++ m) 1000⟩,
          by simp [execute_safely, hpre, try_body, hv, record_execution]⟩
      · exact Or.inr ⟨⟨tool_name ++ "_" ++ toString clk.startInt, tool_name, false,
          clk.elapsed, clk.now,
          pyTrunc ("Tool " ++ tool_name ++ " execution failed: " ++ w.timeoutMsg) 1000⟩,
          by simp [execute_safely, hpre, try_body, hv, record_execution]⟩
  · rw [execute_escape w tool_name outcome args kwargs clk m hpre]
    exact Or.inl rfl

/-- The validation-failure message mentions the tool name. -/
theorem strIncludes_validation_msg (tool_name : String) :
    strIncludes ("Input validation failed for tool " ++ tool_name) tool_name :=
  ⟨"Input validation failed for tool ", "",
    by rw [String.append_assoc, String.append_empty]⟩

/-- The exception-path message mentions the tool name. -/
theorem strIncludes_failed_msg (tool_name m : String) :
    strIncludes ("Tool " ++ tool_name ++ " execution failed: " ++ m) tool_name :=
  ⟨"Tool ", " execution failed: " ++ m, by rw [String.append_assoc]⟩

/-! ### Claim theorems -/

/-- C1 counterexample: with logging enabled (the constructor default)
and an argument whose rendering raises, the debug f-string of
`_log_execution_start` raises BEFORE the `try` block (source line 25),
so `execute_safely` raises `boom` to its caller instead of returning
an error string — `execute` is not total over all argument lists.  The
wrapper is left unchanged (the escape precedes any mutation). -/
theorem logging_render_fault_escapes :
    (execute_safely (init true) "T" (CallOutcome.returns ⟨StrResult.ok "10"⟩)
        [⟨StrResult.raises "boom"⟩] [] ⟨5, 2, 7⟩).2 = Except.error "boom" ∧
    (execute_safely (init true) "T" (CallOutcome.returns ⟨StrResult.ok "10"⟩)
        [⟨StrResult.raises "boom"⟩] [] ⟨5, 2, 7⟩).1 = init true :=
  ⟨rfl, rfl⟩

/-- C1 (amended).  Whenever the pre-`try` logging rendering cannot
raise — logging disabled, or all arguments render — `execute_safely`
returns rather than raises: the result is either the callable’s own
return value or an error string mentioning the tool name; and when the
callable raises on a validated call, the ledger gets exactly one
`success = false` record carrying the fault’s description, pushed
through the capacity rule. -/
theorem execute_safely_total_and_contained (w : ToolSafetyWrapper) (tool_name : String)
    (outcome : CallOutcome) (args : List PyVal) (kwargs : List (String × PyVal)) (clk : Clock)
    (hpre : w.enable_logging = false ∨ ∃ s, inputStr args kwargs = StrResult.ok s) :
    ((∃ v, (execute_safely w tool_name outcome args kwargs clk).2 = Except.ok (Sum.inl v) ∧
        outcome = CallOutcome.returns v) ∨
      (∃ e, (execute_safely w tool_name outcome args kwargs clk).2 = Except.ok (Sum.inr e) ∧
        strIncludes e tool_name)) ∧
    (validate_input args kwargs = true → ∀ m, outcome = CallOutcome.raises m →
      (execute_safely w tool_name outcome args kwargs clk).1.execution_history =
        historyStep w.execution_history
          ⟨tool_name ++ "_" ++ toString clk.startInt, tool_name, false, clk.elapsed, clk.now,
            pyTrunc ("Tool " ++ tool_name ++ " execution failed: " ++ m) 1000⟩ ∧
      (execute_safely w tool_name outcome args kwargs clk).2 =
        Except.ok (Sum.inr ("Tool " ++ tool_name ++ " execution failed: " ++ m))) := by
  obtain ⟨s0, hs⟩ := startLogRender_ok w args kwargs hpre
  constructor
  · rcases hv : validate_input args kwargs with _ | _
    · exact Or.inr ⟨"Input validation failed for tool " ++ tool_name,
        by simp [execute_safely, hs, try_body, hv], strIncludes_validation_msg _⟩
    · rcases outcome with v | m | _
      · rcases hr : v.render with s | m
        · exact Or.inl ⟨v, by simp [execute_safely, hs, try_body, hv, hr], rfl⟩
        · exact Or.inr ⟨"Tool " ++ tool_name ++ " execution failed: " ++ m,
            by simp [execute_safely, hs, try_body, hv, hr], strIncludes_failed_msg _ _⟩
      · exact Or.inr ⟨"Tool " ++ tool_name ++ " execution failed: " ++ m,
          by simp [execute_safely, hs, try_body, hv], strIncludes_failed_msg _ _⟩
      · exact Or.inr ⟨"Tool " ++ tool_name ++ " execution failed: " ++ w.timeoutMsg,
          by simp [execute_safely, hs, try_body, hv], strIncludes_failed_msg _ _⟩
  · intro hv m hm
    subst hm
    constructor
    · simp [execute_safely, hs, try_body, hv, record_execution]
    · simp [execute_safely, hs, try_body, hv]

/-- C1 (amended) witness: with logging disabled, a callable that
raises `boom` under the tool name `T` yields a returned error string
naming the tool and one recorded failure. -/
theorem execute_safely_total_and_contained_witness :
    (∃ e, (execute_safely (init false) "T" (CallOutcome.raises "boom") [] []
        ⟨5, 2, 7⟩).2 = Except.ok (Sum.inr e) ∧ strIncludes e "T") ∧
    (execute_safely (init false) "T" (CallOutcome.raises "boom") [] []
        ⟨5, 2, 7⟩).1.execution_history =
      [⟨"T_5", "T", false, 2, 7, "Tool T execution failed: boom"⟩] := by
  have h := execute_safely_total_and_contained (init false) "T" (CallOutcome.raises "boom")
    [] [] ⟨5, 2, 7⟩ (Or.inl rfl)
  constructor
  · rcases h.1 with ⟨v, _, hc⟩ | he
    · exact absurd hc (by simp)
    · exact he
  · have h2 := (h.2 (by decide) "boom" rfl).1
    rw [h2]
    decide

/-- C2 counterexample: a call that violates the positional-argument
limit (12 arguments) on a logging-enabled wrapper, one of whose
arguments has a raising rendering, does NOT return an error string:
the rendering fault escapes at the pre-`try` logging line (source
line 25), so `execute` raises even though the count limit is
exceeded.  (The callable is still never invoked.) -/
theorem count_violation_can_still_raise :
    (List.replicate 11 (⟨StrResult.ok "x"⟩ : PyVal) ++
        [(⟨StrResult.raises "boomc"⟩ : PyVal)]).length > 10 ∧
    (execute_safely (init true) "V" (CallOutcome.returns ⟨StrResult.ok "1"⟩)
        (List.replicate 11 ⟨StrResult.ok "x"⟩ ++ [⟨StrResult.raises "boomc"⟩]) []
        ⟨1, 1, 1⟩).2 = Except.error "boomc" :=
  ⟨by decide, rfl⟩

/-- C2 (amended).  On a count or denylist violation the callable is
never invoked — the call’s output does not depend on the callable’s
behaviour at all — and whenever the pre-`try` logging rendering cannot
raise (logging disabled, or the arguments render), `execute` returns
the validation error string with the wrapper unchanged. -/
theorem validation_rejects_without_invoking (w : ToolSafetyWrapper) (tool_name : String)
    (outcome : CallOutcome) (args : List PyVal) (kwargs : List (String × PyVal)) (clk : Clock)
    (h : args.length > 10 ∨ kwargs.length > 20 ∨
      ∃ s p, inputStr args kwargs = StrResult.ok s ∧ p ∈ dangerous_patterns ∧
        isSubstrB p.toList s.toList = true) :
    (∀ outcome2 : CallOutcome,
      execute_safely w tool_name outcome args kwargs clk =
        execute_safely w tool_name outcome2 args kwargs clk) ∧
    (w.enable_logging = false ∨ (∃ s, inputStr args kwargs = StrResult.ok s) →
      execute_safely w tool_name outcome args kwargs clk =
        (w, Except.ok (Sum.inr ("Input validation failed for tool " ++ tool_name)))) := by
  have hv : validate_input args kwargs = false := by
    unfold validate_input
    rcases h with h | h | ⟨s, p, hs, hp, hsub⟩
    · simp [h]
    · rcases Nat.lt_or_ge 10 args.length with h10 | h10
      · simp [h10]
      · simp [Nat.not_lt.mpr h10, h]
    · rcases Nat.lt_or_ge 10 args.length with h10 | h10
      · simp [h10]
      · rcases Nat.lt_or_ge 20 kwargs.length with h20 | h20
        · simp [Nat.not_lt.mpr h10, h20]
        · simp [Nat.not_lt.mpr h10, Nat.not_lt.mpr h20, hs]
          exact ⟨p, hp, hsub⟩
  constructor
  · intro outcome2
    rcases hpre : startLogRender w args kwargs with s0 | m
    · rw [execute_of_validation_failure w tool_name outcome args kwargs clk s0 hpre hv,
        execute_of_validation_failure w tool_name outcome2 args kwargs clk s0 hpre hv]
    · rw [execute_escape w tool_name outcome args kwargs clk m hpre,
        execute_escape w tool_name outcome2 args kwargs clk m hpre]
  · intro hok
    obtain ⟨s0, hs⟩ := startLogRender_ok w args kwargs hok
    exact execute_of_validation_failure w tool_name outcome args kwargs clk s0 hs hv

/-- C2 (amended) witness: an argument whose rendering is `os.system`
is rejected with the error string even with logging enabled (its
rendering succeeds, so nothing escapes), and the output is identical
for a different callable behaviour. -/
theorem validation_rejects_without_invoking_witness :
    execute_safely (init true) "T" (CallOutcome.returns ⟨StrResult.ok "10"⟩)
        [⟨StrResult.ok "os.system"⟩] [] ⟨5, 2, 7⟩ =
      (init true, Except.ok (Sum.inr "Input validation failed for tool T")) ∧
    execute_safely (init true) "T" (CallOutcome.returns ⟨StrResult.ok "10"⟩)
        [⟨StrResult.ok "os.system"⟩] [] ⟨5, 2, 7⟩ =
      execute_safely (init true) "T" CallOutcome.timesOut
        [⟨StrResult.ok "os.system"⟩] [] ⟨5, 2, 7⟩ := by
  have h := validation_rejects_without_invoking (init true) "T"
    (CallOutcome.returns ⟨StrResult.ok "10"⟩) [⟨StrResult.ok "os.system"⟩] [] ⟨5, 2, 7⟩
    (Or.inr (Or.inr ⟨"(os.system,)\x7b\x7d", "os.system", by decide, by decide, by decide⟩))
  refine ⟨?_, h.1 CallOutcome.timesOut⟩
  have h2 := h.2 (Or.inr ⟨"(os.system,)\x7b\x7d", by decide⟩)
  rw [h2]
  rfl

/-- C10 counterexample: with logging enabled (the constructor
default), an argument whose rendering raises makes the fault escape
from the pre-`try` `_log_execution_start` line BEFORE `_validate_input`
ever runs: `execute` raises `badrepr` to its caller instead of
rejecting the call — even though validation, had it run, would have
returned `False`. -/
theorem render_fault_escapes_before_validation :
    validate_input [⟨StrResult.raises "badrepr"⟩] [] = false ∧
    (execute_safely (init true) "U" (CallOutcome.returns ⟨StrResult.ok "1"⟩)
        [⟨StrResult.raises "badrepr"⟩] [] ⟨3, 1, 4⟩).2 = Except.error "badrepr" :=
  ⟨by decide, rfl⟩

/-- C10 (amended).  `_validate_input` itself fails closed: a raising
argument rendering makes it return `False`.  With logging disabled the
call is therefore rejected with the validation error string and the
callable is never invoked; with logging enabled the rendering fault
instead escapes at the pre-`try` logging line (source line 25) before
validation runs — the callable is still never invoked, but the fault
is not contained. -/
theorem validation_fails_closed (args : List PyVal) (kwargs : List (String × PyVal))
    (m : String) (h : inputStr args kwargs = StrResult.raises m) :
    validate_input args kwargs = false ∧
    (∀ (w : ToolSafetyWrapper) (tool_name : String) (outcome : CallOutcome) (clk : Clock),
      w.enable_logging = false →
      execute_safely w tool_name outcome args kwargs clk =
        (w, Except.ok (Sum.inr ("Input validation failed for tool " ++ tool_name)))) ∧
    (∀ (w : ToolSafetyWrapper) (tool_name : String) (outcome : CallOutcome) (clk : Clock),
      w.enable_logging = true →
      execute_safely w tool_name outcome args kwargs clk = (w, Except.error m)) := by
  have hv : validate_input args kwargs = false := by
    unfold validate_input
    rcases Nat.lt_or_ge 10 args.length with h10 | h10
    · simp [h10]
    · rcases Nat.lt_or_ge 20 kwargs.length with h20 | h20
      · simp [Nat.not_lt.mpr h10, h20]
      · simp [Nat.not_lt.mpr h10, Nat.not_lt.mpr h20, h]
  refine ⟨hv, ?_, ?_⟩
  · intro w tool_name outcome clk hlog
    exact execute_of_validation_failure w tool_name outcome args kwargs clk ""
      (by simp [startLogRender, hlog]) hv
  · intro w tool_name outcome clk hlog
    exact execute_escape w tool_name outcome args kwargs clk m
      (by simp [startLogRender, hlog, h])

/-- C10 (amended) witness: with logging disabled, an argument whose
rendering raises `boom` is rejected with the validation error string. -/
theorem validation_fails_closed_witness :
    validate_input [⟨StrResult.raises "boom"⟩] [] = false ∧
    execute_safely (init false) "T" (CallOutcome.returns ⟨StrResult.ok "10"⟩)
        [⟨StrResult.raises "boom"⟩] [] ⟨5, 2, 7⟩ =
      (init false, Except.ok (Sum.inr "Input validation failed for tool T")) := by
  have h := validation_fails_closed [⟨StrResult.raises "boom"⟩] [] "boom" rfl
  refine ⟨h.1, ?_⟩
  have h2 := h.2.1 (init false) "T" (CallOutcome.returns ⟨StrResult.ok "10"⟩) ⟨5, 2, 7⟩ rfl
  rw [h2]
  rfl

/-- C3 counterexample: a call rejected by input validation (here 11
positional arguments, all rendering fine, logging disabled) returns
the error string but appends NO record; the ledger stays empty.  In
the source, `execute_safely` returns on line 31 before ever reaching
`_record_execution`. -/
theorem validation_rejection_appends_no_record :
    (execute_safely (init false) "T" (CallOutcome.returns ⟨StrResult.ok "10"⟩)
        (List.replicate 11 ⟨StrResult.ok "x"⟩) [] ⟨5, 2, 7⟩).1.execution_history = [] ∧
    (execute_safely (init false) "T" (CallOutcome.returns ⟨StrResult.ok "10"⟩)
        (List.replicate 11 ⟨StrResult.ok "x"⟩) [] ⟨5, 2, 7⟩).2 =
      Except.ok (Sum.inr "Input validation failed for tool T") :=
  ⟨rfl, rfl⟩

/-- C3 (amended).  Exactly the attempts that pass input validation
append a record: a validated attempt pushes exactly one new record
bearing the call’s tool name through the capacity rule, while a
validation-rejected call leaves the wrapper unchanged (whether it
returns the error string or, on the escaping logging path, raises). -/
theorem record_appended_iff_validated (w : ToolSafetyWrapper) (tool_name : String)
    (outcome : CallOutcome) (args : List PyVal) (kwargs : List (String × PyVal)) (clk : Clock) :
    (validate_input args kwargs = true →
      ∃ r : ExecutionRecord, r.tool_name = tool_name ∧
        (execute_safely w tool_name outcome args kwargs clk).1.execution_history =
          historyStep w.execution_history r) ∧
    (validate_input args kwargs = false →
      (execute_safely w tool_name outcome args kwargs clk).1 = w) := by
  constructor
  · intro hv
    obtain ⟨s1, hs1⟩ := startLogRender_ok_of_validate w args kwargs hv
    rcases outcome with v | m | _
    · rcases hr : v.render with s | m
      · exact ⟨⟨tool_name ++ "_" ++ toString clk.startInt, tool_name, true,
          clk.elapsed, clk.now, pyTrunc s 1000⟩, rfl,
          by simp [execute_safely, hs1, try_body, hv, hr, record_execution]⟩
      · exact ⟨⟨tool_name ++ "_" ++ toString clk.startInt, tool_name, false,
          clk.elapsed, clk.now,
          pyTrunc ("Tool " ++ tool_name ++ " execution failed: " ++ m) 1000⟩, rfl,
          by simp [execute_safely, hs1, try_body, hv, hr, record_execution]⟩
    · exact ⟨⟨tool_name ++ "_" ++ toString clk.startInt, tool_name, false,
        clk.elapsed, clk.now,
        pyTrunc ("Tool " ++ tool_name ++ " execution failed: " ++ m) 1000⟩, rfl,
        by simp [execute_safely, hs1, try_body, hv, record_execution]⟩
    · exact ⟨⟨tool_name ++ "_" ++ toString clk.startInt, tool_name, false,
        clk.elapsed, clk.now,
        pyTrunc ("Tool " ++ tool_name ++ " execution failed: " ++ w.timeoutMsg) 1000⟩, rfl,
        by simp [execute_safely, hs1, try_body, hv, record_execution]⟩
  · intro hv
    rcases hpre : startLogRender w args kwargs with s0 | m
    · rw [execute_of_validation_failure w tool_name outcome args kwargs clk s0 hpre hv]
    · rw [execute_escape w tool_name outcome args kwargs clk m hpre]

/-- C3 (amended) witness: a validated attempt (raising callable, no
arguments) appends exactly one record named after the tool. -/
theorem record_appended_iff_validated_witness :
    ∃ r : ExecutionRecord, r.tool_name = "T" ∧
      (execute_safely (init false) "T" (CallOutcome.raises "boom") [] []
          ⟨5, 2, 7⟩).1.execution_history =
        historyStep (init false).execution_history r :=
  (record_appended_iff_validated (init false) "T" (CallOutcome.raises "boom") [] []
    ⟨5, 2, 7⟩).1 (by decide)

/-- C4.  A validated call whose callable returns a value `v` whose
rendering succeeds as `s` hands back `v` itself unchanged and appends
exactly one `success = true` record whose result text is `s` truncated
to at most 1000 characters.  (Validation passing implies the arguments
render, so the pre-`try` logging line cannot raise here.) -/
theorem successful_call_returns_value_and_records (w : ToolSafetyWrapper)
    (tool_name : String) (v : PyVal) (s : String) (args : List PyVal)
    (kwargs : List (String × PyVal)) (clk : Clock)
    (hv : validate_input args kwargs = true) (hr : v.render = StrResult.ok s) :
    (execute_safely w tool_name (CallOutcome.returns v) args kwargs clk).2 =
      Except.ok (Sum.inl v) ∧
    (execute_safely w tool_name (CallOutcome.returns v) args kwargs clk).1.execution_history =
      historyStep w.execution_history
        ⟨tool_name ++ "_" ++ toString clk.startInt, tool_name, true, clk.elapsed, clk.now,
          pyTrunc s 1000⟩ ∧
    (pyTrunc s 1000).length ≤ 1000 := by
  obtain ⟨s1, hs1⟩ := startLogRender_ok_of_validate w args kwargs hv
  refine ⟨?_, ?_, ?_⟩
  · simp [execute_safely, hs1, try_body, hv, hr]
  · simp [execute_safely, hs1, try_body, hv, hr, record_execution]
  · rw [show (pyTrunc s 1000).length = (s.data.take 1000).length from rfl, List.length_take]
    omega

/-- C4 witness: the spec’s `double` scenario — `execute(double,
"Double", 5)` returns the value rendering `10` and the single record
is `success = true` with result text `10`. -/
theorem successful_call_returns_value_and_records_witness :
    (execute_safely (init false) "Double" (CallOutcome.returns ⟨StrResult.ok "10"⟩)
        [⟨StrResult.ok "5"⟩] [] ⟨5, 2, 7⟩).2 = Except.ok (Sum.inl ⟨StrResult.ok "10"⟩) ∧
    (execute_safely (init false) "Double" (CallOutcome.returns ⟨StrResult.ok "10"⟩)
        [⟨StrResult.ok "5"⟩] [] ⟨5, 2, 7⟩).1.execution_history =
      [⟨"Double_5", "Double", true, 2, 7, "10"⟩] := by
  have h := successful_call_returns_value_and_records (init false) "Double"
    ⟨StrResult.ok "10"⟩ "10" [⟨StrResult.ok "5"⟩] [] ⟨5, 2, 7⟩ (by decide) rfl
  refine ⟨h.1, ?_⟩
  rw [h.2.1]
  decide

/-- Pushing one record onto the last-1000 suffix of `L` gives the
last-1000 suffix of `L ++ [r]`: one step of the eviction rule keeps
the ledger equal to the most recent 1000 records. -/
theorem historyStep_lastN (L : List ExecutionRecord) (r : ExecutionRecord) :
    historyStep (L.drop (L.length - 1000)) r =
      (L ++ [r]).drop ((L ++ [r]).length - 1000) := by
  unfold historyStep
  rcases Nat.lt_or_ge L.length 1000 with hlt | hge
  · have h0 : L.length - 1000 = 0 := by omega
    have hc : ¬ (L.drop (L.length - 1000) ++ [r]).length > 1000 := by
      simp
      omega
    rw [if_neg hc, h0, List.drop_zero]
    have h1 : (L ++ [r]).length - 1000 = 0 := by
      simp
      omega
    rw [h1, List.drop_zero]
  · have hX : (L.drop (L.length - 1000)).length = 1000 := by
      simp
      omega
    have hc : (L.drop (L.length - 1000) ++ [r]).length > 1000 := by
      simp [hX]
    rw [if_pos hc]
    have h1 : (L.drop (L.length - 1000) ++ [r]).length - 1000 = 1 := by
      simp [hX]
    rw [h1, List.drop_append_of_le_length (by omega : 1 ≤ (L.drop (L.length - 1000)).length),
      List.drop_drop]
    have h2 : (L ++ [r]).length - 1000 = L.length + 1 - 1000 := by simp
    rw [h2, List.drop_append_of_le_length (by omega : L.length + 1 - 1000 ≤ L.length)]
    have h3 : L.length - 1000 + 1 = L.length + 1 - 1000 := by omega
    rw [h3]

/-- Folding the eviction rule from the last-1000 suffix of `L` over
`recs` yields the last-1000 suffix of `L ++ recs`. -/
theorem foldl_historyStep_lastN (recs : List ExecutionRecord) :
    ∀ L : List ExecutionRecord,
      recs.foldl historyStep (L.drop (L.length - 1000)) =
        (L ++ recs).drop ((L ++ recs).length - 1000) := by
  induction recs with
  | nil =>
      intro L
      simp
  | cons r rest ih =>
      intro L
      rw [List.foldl_cons, historyStep_lastN, ih (L ++ [r])]
      rw [show L ++ r :: rest = (L ++ [r]) ++ rest by simp]

/-- C6.  First, the ledger never exceeds 1000 records after any
sequence of wrapper operations started from a fresh wrapper; second,
eviction is FIFO: recording any sequence of attempts onto an empty
ledger leaves exactly the most recent 1000 records, in insertion
order (for 1500 attempts, `drop 500` of them). -/
theorem ledger_capacity_and_fifo :
    (∀ (b : Bool) (ops : List Op), ((init b).run ops).execution_history.length ≤ 1000) ∧
    (∀ recs : List ExecutionRecord,
      recs.foldl historyStep [] = recs.drop (recs.length - 1000)) := by
  constructor
  · have hstep : ∀ (w : ToolSafetyWrapper) (op : Op),
        w.execution_history.length ≤ 1000 → (runOp w op).execution_history.length ≤ 1000 := by
      intro w op hw
      rcases op with ⟨n, o, a, k, c⟩ | _ | s | b
      · rcases execute_history_cases w n o a k c with h | ⟨r, h⟩
        · unfold runOp
          rw [h]
          exact hw
        · unfold runOp
          rw [h]
          exact historyStep_length_le _ _
      · simp [runOp, clear_execution_history]
      · simpa [runOp, set_max_execution_time] using hw
      · simpa [runOp, set_max_memory_usage] using hw
    have hrun : ∀ (ops : List Op) (w : ToolSafetyWrapper),
        w.execution_history.length ≤ 1000 → (w.run ops).execution_history.length ≤ 1000 := by
      intro ops
      induction ops with
      | nil =>
          intro w hw
          simpa [run] using hw
      | cons op rest ih =>
          intro w hw
          have h2 := ih (runOp w op) (hstep w op hw)
          simpa [run, List.foldl_cons] using h2
    intro b ops
    exact hrun ops (init b) (by simp [init])
  · intro recs
    have h := foldl_historyStep_lastN recs []
    simpa using h

/-- A concrete failed-attempt record, for exercising the query
operations on a non-empty ledger. -/
def sampleRecord : ExecutionRecord :=
  ⟨"T_5", "T", false, 2, 7, "Tool T execution failed: boom"⟩

/-- A wrapper state holding exactly one (failed) record. -/
def sampleWrapper : ToolSafetyWrapper :=
  ⟨false, [sampleRecord], 30, 104857600⟩

/-- On a non-empty filtered list, the failures are the total minus the
successes. -/
theorem length_filter_not_success (l : List ExecutionRecord) :
    (l.filter fun e => ! e.success).length =
      l.length - (l.filter fun e => e.success).length := by
  induction l with
  | nil => simp
  | cons e rest ih =>
      have hle := List.length_filter_le (fun e : ExecutionRecord => e.success) rest
      cases he : e.success
      · simp [he, ih]
        omega
      · simp [he, ih]

/-- C7 counterexample: on an empty ledger `get_execution_stats`
returns a dictionary holding only `total_executions = 0`; there is no
success-rate entry (in the source, reading `["success_rate"]` on it
would be a `KeyError`), so it is not the claimed `0`. -/
theorem empty_ledger_stats_lack_success_rate :
    (get_execution_stats (init true)).success_rate = none ∧
    (get_execution_stats (init true)).success_rate ≠ some 0 ∧
    (get_execution_stats (init true)).total_executions = 0 := by
  refine ⟨rfl, ?_, rfl⟩
  intro h
  simp [get_execution_stats, init] at h

/-- C7 (amended).  `get_execution_stats` always reports the ledger
length as the total; on an empty ledger it reports only that total
(every other entry absent); on a non-empty ledger it reports the
successful count, the failed count (total minus successful), the
success rate `successful/total`, the average duration and the total
duration. -/
theorem stats_aggregate (w : ToolSafetyWrapper) :
    (get_execution_stats w).total_executions = w.execution_history.length ∧
    (w.execution_history = [] →
      get_execution_stats w = ⟨0, none, none, none, none, none⟩) ∧
    (w.execution_history ≠ [] →
      get_execution_stats w =
        ⟨w.execution_history.length,
         some (w.execution_history.filter fun e => e.success).length,
         some (w.execution_history.length -
           (w.execution_history.filter fun e => e.success).length),
         some (((w.execution_history.filter fun e => e.success).length : ℚ) /
           (w.execution_history.length : ℚ)),
         some (((w.execution_history.map fun e => e.execution_time).sum) /
           (w.execution_history.length : ℚ)),
         some ((w.execution_history.map fun e => e.execution_time).sum)⟩) := by
  refine ⟨?_, ?_, ?_⟩
  · unfold get_execution_stats
    split
    · simp_all [List.isEmpty_iff]
    · rfl
  · intro h
    unfold get_execution_stats
    simp [h]
  · intro h
    unfold get_execution_stats
    rw [if_neg (by simpa [List.isEmpty_iff] using h)]
    dsimp only
    rw [length_filter_not_success]

/-- C7 (amended) witness: on the one-failure ledger the stats are
total 1, successes 0, failures 1, rate 0, average and total 2. -/
theorem stats_aggregate_witness :
    sampleWrapper.execution_history ≠ [] ∧
    get_execution_stats sampleWrapper = ⟨1, some 0, some 1, some 0, some 2, some 2⟩ := by
  have h := (stats_aggregate sampleWrapper).2.2 (by simp [sampleWrapper])
  refine ⟨by simp [sampleWrapper], ?_⟩
  rw [h]
  simp [sampleWrapper, sampleRecord]

/-- C8 counterexample: with one record in the ledger, asking for the
last 0 records returns the whole ledger — the Python slice
`history[-0:]` is `history[0:]` — not the claimed
`min(limit, length) = 0` records. -/
theorem recent_zero_returns_whole_ledger :
    get_recent_executions sampleWrapper 0 = [sampleRecord] ∧
    (get_recent_executions sampleWrapper 0).length ≠
      min 0 sampleWrapper.execution_history.length := by
  constructor
  · rfl
  · decide

/-- C8 (amended).  For every positive limit the query returns exactly
the last `min(limit, length)` records in insertion order; limit 0
returns the entire ledger (the `-0 == 0` slicing artifact); after
`clear_execution_history` every limit yields the empty sequence. -/
theorem recent_executions_spec (w : ToolSafetyWrapper) (limit : Nat) :
    (0 < limit →
      get_recent_executions w limit =
        w.execution_history.drop (w.execution_history.length - limit) ∧
      (get_recent_executions w limit).length = min limit w.execution_history.length) ∧
    get_recent_executions w 0 = w.execution_history ∧
    get_recent_executions (clear_execution_history w) limit = [] := by
  refine ⟨?_, ?_, ?_⟩
  · intro hl
    unfold get_recent_executions
    rcases hE : w.execution_history.isEmpty with _ | _
    · rw [if_neg (by simp [hE]), if_neg (by omega)]
      refine ⟨rfl, ?_⟩
      simp
      omega
    · rw [if_pos (by simp [hE])]
      have h0 : w.execution_history = [] := by simpa [List.isEmpty_iff] using hE
      simp [h0]
  · unfold get_recent_executions
    rcases hE : w.execution_history.isEmpty with _ | _
    · rw [if_neg (by simp [hE]), if_pos rfl]
    · rw [if_pos (by simp [hE])]
      simpa [List.isEmpty_iff] using hE
  · simp [get_recent_executions, clear_execution_history]

/-- C8 (amended) witness: limit 1 on the one-record ledger returns
that single record. -/
theorem recent_executions_spec_witness :
    get_recent_executions sampleWrapper 1 = [sampleRecord] ∧
    (get_recent_executions sampleWrapper 1).length =
      min 1 sampleWrapper.execution_history.length := by
  have h := (recent_executions_spec sampleWrapper 1).1 (by decide)
  exact ⟨h.1, h.2⟩

/-- C9.  The configuration setters clamp rather than reject: the
stored execution deadline is `max 1 s` (so non-positive values clamp
to 1 and values ≥ 1 are stored verbatim) and the stored memory knob is
`max 1024 b` (values ≥ 1024 stored verbatim). -/
theorem config_setters_clamp (w : ToolSafetyWrapper) (s b : Int) :
    (w.set_max_execution_time s).max_execution_time = max 1 s ∧
    (s ≤ 0 → (w.set_max_execution_time s).max_execution_time = 1) ∧
    (1 ≤ s → (w.set_max_execution_time s).max_execution_time = s) ∧
    (w.set_max_memory_usage b).max_memory_usage = max 1024 b ∧
    (b ≤ 1024 → (w.set_max_memory_usage b).max_memory_usage = 1024) ∧
    (1024 ≤ b → (w.set_max_memory_usage b).max_memory_usage = b) := by
  refine ⟨rfl, ?_, ?_, rfl, ?_, ?_⟩ <;>
    intro h <;> simp [set_max_execution_time, set_max_memory_usage] <;> omega

/-- C9 witness: setting the deadline to −5 stores 1, setting it to 45
stores 45, setting the memory knob to 100 stores 1024. -/
theorem config_setters_clamp_witness :
    ((init true).set_max_execution_time (-5)).max_execution_time = 1 ∧
    ((init true).set_max_execution_time 45).max_execution_time = 45 ∧
    ((init true).set_max_memory_usage 100).max_memory_usage = 1024 := by
  have h1 := config_setters_clamp (init true) (-5) 100
  have h2 := config_setters_clamp (init true) 45 100
  exact ⟨h1.2.1 (by decide), h2.2.2.1 (by decide), h1.2.2.2.2.1 (by decide)⟩
